import Mathlib

/-!
Verification of the telemetry simulator of the Interfaz-CanSat repository
(`telemetry_simulator.py`).

The simulator is shallowly embedded over exact rationals `ℚ`:
* `np.sin` and `np.exp` are abstract parameters `s e : ℚ → ℚ` (every claim
  below is independent of their actual values);
* each `np.random.normal` draw of one `get_next` call is an explicit input,
  bundled in a `Noise` record (one field per draw site, in source order);
* the numpy 1-d arrays are `List ℚ`; `np.linspace`, `np.zeros_like`,
  `np.roll(·, -1)` and the `a[-1] = v` store are modelled by the list
  functions below;
* Python's float `%` is modelled by `fmod` (sign of the divisor, as in
  Python).

A second, store-based embedding (`Store`, `SimRef`, `SampleRef`) makes array
identity explicit in order to state the defensive-copy property of the
returned sample dictionary.
-/

namespace CanSat

/-- `np.linspace a b n`: `n` evenly spaced points from `a` to `b` inclusive. -/
def linspace (a b : ℚ) (n : ℕ) : List ℚ :=
  (List.range n).map (fun i : ℕ => a + (b - a) * (i : ℚ) / ((n : ℚ) - 1))

/-- `np.zeros_like xs`: a list of zeros of the same length as `xs`. -/
def zeros_like (xs : List ℚ) : List ℚ :=
  xs.map (fun _ => 0)

/-- `np.roll xs (-1)`: rotate left by one (first element moves to the end). -/
def np_roll_neg1 (xs : List ℚ) : List ℚ :=
  xs.drop 1 ++ xs.take 1

/-- The in-place store `xs[-1] = v`: replace the final element by `v`. -/
def setLastVal (xs : List ℚ) (v : ℚ) : List ℚ :=
  xs.dropLast ++ [v]

/-- Python's float modulo `a % b` (result carries the sign of `b`). -/
def fmod (a b : ℚ) : ℚ :=
  a - b * ⌊a / b⌋

/-- The five `np.random.normal` draws of one `get_next` call, in source
order.  The draws are arbitrary rationals: the claims hold for any noise. -/
structure Noise where
  pressure : ℚ
  temperature : ℚ
  latency : ℚ
  velocity : ℚ
  gforce : ℚ

/-- The all-zero noise draw (a random source seeded to emit zero noise). -/
def Noise.zero : Noise :=
  ⟨0, 0, 0, 0, 0⟩

/-- The mutable state of `TelemetrySimulator` (`__init__`, lines 17-26). -/
structure TelemetrySimulator where
  elapsed_seconds : ℚ
  velocity_time : List ℚ
  velocity_data : List ℚ
  gforce_time : List ℚ
  gforce_data : List ℚ
deriving DecidableEq

/-- The state built by `TelemetrySimulator.__init__`. -/
def TelemetrySimulator.init : TelemetrySimulator where
  elapsed_seconds := 0
  velocity_time := linspace (-120) 0 100
  velocity_data := zeros_like (linspace (-120) 0 100)
  gforce_time := linspace (-1.5) 4.0 100
  gforce_data := zeros_like (linspace (-1.5) 4.0 100)

/-- `TelemetrySimulator.reset` (lines 28-34): restore the initial state. -/
def TelemetrySimulator.reset (_s : TelemetrySimulator) : TelemetrySimulator :=
  TelemetrySimulator.init

/-- The dictionary returned by `get_next` (lines 68-80). -/
structure Sample where
  pressure : ℚ
  temperature : ℚ
  altitude : ℚ
  altitude_rate : ℚ
  latency : ℚ
  velocity_time : List ℚ
  velocity_data : List ℚ
  gforce_time : List ℚ
  gforce_data : List ℚ
  new_velocity : ℚ
  new_gforce : ℚ
deriving DecidableEq

/-- `TelemetrySimulator.get_next` (lines 36-80), parametrised by the
mathematical primitives `s = np.sin`, `e = np.exp` and the noise draws `ε`.
Returns the sample dictionary together with the updated object state. -/
def TelemetrySimulator.get_next (st : TelemetrySimulator) (s e : ℚ → ℚ)
    (dt : ℚ) (ε : Noise) : Sample × TelemetrySimulator :=
  let elapsed := st.elapsed_seconds + dt
  let pressure := 101.3 + s (elapsed / 10) * 2 + ε.pressure
  let temperature := 24.8 + s (elapsed / 15 + 1) * 3 + ε.temperature
  let altitude := 1245.8 + elapsed * 2.5 + s (elapsed / 8) * 50
  let altitude_rate := 12.4 + s (elapsed / 7) * 8
  let latency := max 10 (min 100 (24 + ε.latency))
  let new_velocity := max 0 (15 + 10 * s (elapsed / 20) + ε.velocity)
  let velocity_data := setLastVal (np_roll_neg1 st.velocity_data) new_velocity
  let gtRolled := np_roll_neg1 st.gforce_time
  let gforce_time := setLastVal gtRolled (gtRolled.getD (gtRolled.length - 2) 0 + 0.055)
  let new_gforce := max 0 (2 + 3 * e (-((fmod elapsed 30 - 15) ^ 2) / 50) + ε.gforce)
  let gforce_data := setLastVal (np_roll_neg1 st.gforce_data) new_gforce
  (⟨pressure, temperature, altitude, altitude_rate, latency,
    st.velocity_time, velocity_data, gforce_time, gforce_data,
    new_velocity, new_gforce⟩,
   ⟨elapsed, st.velocity_time, velocity_data, gforce_time, gforce_data⟩)

/-- Run a whole sequence of `get_next` calls (one `(dt, ε)` pair each),
returning the final state. -/
def runSim (s e : ℚ → ℚ) (st : TelemetrySimulator) :
    List (ℚ × Noise) → TelemetrySimulator
  | [] => st
  | c :: rest => runSim s e (st.get_next s e c.1 c.2).2 rest

/-- The clock values observed after each call of a sequence. -/
def clockTraj (s e : ℚ → ℚ) (st : TelemetrySimulator) :
    List (ℚ × Noise) → List ℚ
  | [] => []
  | c :: rest =>
    (st.get_next s e c.1 c.2).2.elapsed_seconds ::
      clockTraj s e (st.get_next s e c.1 c.2).2 rest

/-- The samples returned along a sequence of `get_next` calls. -/
def sampleTraj (s e : ℚ → ℚ) (st : TelemetrySimulator) :
    List (ℚ × Noise) → List Sample
  | [] => []
  | c :: rest =>
    (st.get_next s e c.1 c.2).1 :: sampleTraj s e (st.get_next s e c.1 c.2).2 rest

/-! ### Unfolding lemmas for the fields of `get_next` -/

theorem get_next_elapsed (st : TelemetrySimulator) (s e : ℚ → ℚ) (dt : ℚ) (ε : Noise) :
    (st.get_next s e dt ε).2.elapsed_seconds = st.elapsed_seconds + dt := rfl

theorem get_next_latency (st : TelemetrySimulator) (s e : ℚ → ℚ) (dt : ℚ) (ε : Noise) :
    (st.get_next s e dt ε).1.latency = max 10 (min 100 (24 + ε.latency)) := rfl

theorem get_next_new_velocity (st : TelemetrySimulator) (s e : ℚ → ℚ) (dt : ℚ) (ε : Noise) :
    (st.get_next s e dt ε).1.new_velocity =
      max 0 (15 + 10 * s ((st.elapsed_seconds + dt) / 20) + ε.velocity) := rfl

theorem get_next_new_gforce (st : TelemetrySimulator) (s e : ℚ → ℚ) (dt : ℚ) (ε : Noise) :
    (st.get_next s e dt ε).1.new_gforce =
      max 0 (2 + 3 * e (-((fmod (st.elapsed_seconds + dt) 30 - 15) ^ 2) / 50) + ε.gforce) := rfl

theorem get_next_velocity_time (st : TelemetrySimulator) (s e : ℚ → ℚ) (dt : ℚ) (ε : Noise) :
    (st.get_next s e dt ε).2.velocity_time = st.velocity_time := rfl

theorem get_next_sample_velocity_time (st : TelemetrySimulator) (s e : ℚ → ℚ) (dt : ℚ)
    (ε : Noise) : (st.get_next s e dt ε).1.velocity_time = st.velocity_time := rfl

theorem get_next_velocity_data (st : TelemetrySimulator) (s e : ℚ → ℚ) (dt : ℚ) (ε : Noise) :
    (st.get_next s e dt ε).2.velocity_data =
      setLastVal (np_roll_neg1 st.velocity_data) ((st.get_next s e dt ε).1.new_velocity) := rfl

theorem get_next_gforce_data (st : TelemetrySimulator) (s e : ℚ → ℚ) (dt : ℚ) (ε : Noise) :
    (st.get_next s e dt ε).2.gforce_data =
      setLastVal (np_roll_neg1 st.gforce_data) ((st.get_next s e dt ε).1.new_gforce) := rfl

theorem get_next_gforce_time (st : TelemetrySimulator) (s e : ℚ → ℚ) (dt : ℚ) (ε : Noise) :
    (st.get_next s e dt ε).2.gforce_time =
      setLastVal (np_roll_neg1 st.gforce_time)
        ((np_roll_neg1 st.gforce_time).getD ((np_roll_neg1 st.gforce_time).length - 2) 0
          + 0.055) := rfl

theorem get_next_sample_state_eq (st : TelemetrySimulator) (s e : ℚ → ℚ) (dt : ℚ) (ε : Noise) :
    (st.get_next s e dt ε).1.velocity_data = (st.get_next s e dt ε).2.velocity_data ∧
    (st.get_next s e dt ε).1.gforce_time = (st.get_next s e dt ε).2.gforce_time ∧
    (st.get_next s e dt ε).1.gforce_data = (st.get_next s e dt ε).2.gforce_data :=
  ⟨rfl, rfl, rfl⟩

/-! ### List helper lemmas -/

theorem setLastVal_np_roll_neg1 (xs : List ℚ) (v : ℚ) (h : xs ≠ []) :
    setLastVal (np_roll_neg1 xs) v = xs.drop 1 ++ [v] := by
  cases xs with
  | nil => exact absurd rfl h
  | cons a t => simp [setLastVal, np_roll_neg1, List.dropLast_concat]

theorem length_setLastVal_np_roll_neg1 (xs : List ℚ) (v : ℚ) (h : xs ≠ []) :
    (setLastVal (np_roll_neg1 xs) v).length = xs.length := by
  rw [setLastVal_np_roll_neg1 xs v h]
  cases xs with
  | nil => exact absurd rfl h
  | cons a t => simp

theorem scanl_add_head_tail (b : ℚ) (l : List ℚ) :
    List.scanl (· + ·) b l = b :: (List.scanl (· + ·) b l).tail := by
  cases l <;> simp [List.scanl]

/-! ### Clock trajectory lemmas (for C1) -/

theorem clockTraj_eq_scanl (s e : ℚ → ℚ) (st : TelemetrySimulator)
    (calls : List (ℚ × Noise)) :
    clockTraj s e st calls =
      (List.scanl (· + ·) st.elapsed_seconds (calls.map Prod.fst)).tail := by
  induction calls generalizing st with
  | nil => simp [clockTraj]
  | cons c rest ih =>
    simp only [clockTraj, List.map_cons, List.scanl_cons, List.singleton_append,
      List.tail_cons, get_next_elapsed]
    rw [ih]
    simp only [get_next_elapsed]
    exact (scanl_add_head_tail _ _).symm

theorem clockTraj_chain (s e : ℚ → ℚ) (st : TelemetrySimulator)
    (calls : List (ℚ × Noise)) (hpos : ∀ c ∈ calls, 0 < c.1) :
    List.Chain' (· < ·) (st.elapsed_seconds :: clockTraj s e st calls) := by
  induction calls generalizing st with
  | nil => simp [clockTraj]
  | cons c rest ih =>
    simp only [clockTraj, List.chain'_cons, get_next_elapsed]
    refine ⟨lt_add_of_pos_right _ (hpos c (List.mem_cons_self c rest)), ?_⟩
    have := ih (st.get_next s e c.1 c.2).2 (fun d hd => hpos d (List.mem_cons_of_mem c hd))
    simpa only [get_next_elapsed] using this

/-- C1: for every positive step and every sequence of `get_next` calls, each
call increases `elapsed_seconds` by exactly that call's step: the clock
trajectory is the running sum of the steps (`scanl (+)`), and it is strictly
monotone when every step is positive. -/
theorem C1_clock_exact_steps_monotone (s e : ℚ → ℚ) (st : TelemetrySimulator)
    (calls : List (ℚ × Noise)) (hpos : ∀ c ∈ calls, 0 < c.1) :
    clockTraj s e st calls =
      (List.scanl (· + ·) st.elapsed_seconds (calls.map Prod.fst)).tail ∧
    List.Chain' (· < ·) (st.elapsed_seconds :: clockTraj s e st calls) :=
  ⟨clockTraj_eq_scanl s e st calls, clockTraj_chain s e st calls hpos⟩

/-- Witness for C1 at a concrete two-call sequence with steps 1 and 2. -/
theorem C1_clock_exact_steps_monotone_witness :
    (∀ c ∈ [((1 : ℚ), Noise.zero), ((2 : ℚ), Noise.zero)], 0 < c.1) ∧
    (clockTraj id id TelemetrySimulator.init [((1 : ℚ), Noise.zero), ((2 : ℚ), Noise.zero)] =
      (List.scanl (· + ·) TelemetrySimulator.init.elapsed_seconds
        ([((1 : ℚ), Noise.zero), ((2 : ℚ), Noise.zero)].map Prod.fst)).tail ∧
    List.Chain' (· < ·) (TelemetrySimulator.init.elapsed_seconds ::
      clockTraj id id TelemetrySimulator.init
        [((1 : ℚ), Noise.zero), ((2 : ℚ), Noise.zero)])) :=
  ⟨by decide, C1_clock_exact_steps_monotone id id TelemetrySimulator.init
    [((1 : ℚ), Noise.zero), ((2 : ℚ), Noise.zero)] (by decide)⟩

/-- C2: the latency of every returned sample lies in `[10, 100]`, and the
returned instantaneous velocity and g-force are nonnegative, for every state,
step and noise draw. -/
theorem C2_latency_velocity_gforce_bounds (s e : ℚ → ℚ) (st : TelemetrySimulator)
    (dt : ℚ) (ε : Noise) :
    10 ≤ (st.get_next s e dt ε).1.latency ∧ (st.get_next s e dt ε).1.latency ≤ 100 ∧
    0 ≤ (st.get_next s e dt ε).1.new_velocity ∧ 0 ≤ (st.get_next s e dt ε).1.new_gforce := by
  refine ⟨?_, ?_, ?_, ?_⟩
  · rw [get_next_latency]; exact le_max_left _ _
  · rw [get_next_latency]; exact max_le (by norm_num) (min_le_left _ _)
  · rw [get_next_new_velocity]; exact le_max_left _ _
  · rw [get_next_new_gforce]; exact le_max_left _ _

/-! ### C3: the code does not reject non-positive steps -/

/-- C3 counterexample: the claim says `advance(-1)` fails with an
InvalidArgument-style error, but in the code `get_next(-1)` succeeds,
returning a normal result whose clock has moved backwards (to `-1` from a
fresh instance): no step is rejected. -/
theorem C3_counterexample_negative_step_accepted :
    (TelemetrySimulator.init.get_next id id (-1) Noise.zero).2.elapsed_seconds = -1 ∧
    (TelemetrySimulator.init.get_next id id (-1) Noise.zero).2.elapsed_seconds <
      TelemetrySimulator.init.elapsed_seconds := by
  rw [get_next_elapsed]
  norm_num [TelemetrySimulator.init]

/-- C3 amended: `get_next` performs no step-positivity check: for any step
`dt ≤ 0` it still returns normally, setting the clock to `elapsed + dt`,
which does not increase (the InvalidArgument check of the spec is a
hardening addition absent from the source). -/
theorem C3_nonpositive_step_not_rejected (s e : ℚ → ℚ) (st : TelemetrySimulator)
    (dt : ℚ) (ε : Noise) (h : dt ≤ 0) :
    (st.get_next s e dt ε).2.elapsed_seconds = st.elapsed_seconds + dt ∧
    (st.get_next s e dt ε).2.elapsed_seconds ≤ st.elapsed_seconds := by
  rw [get_next_elapsed]
  exact ⟨rfl, by linarith⟩

/-- Witness for the amended C3 at step `-1` on a fresh instance. -/
theorem C3_nonpositive_step_not_rejected_witness :
    ((-1 : ℚ) ≤ 0) ∧
    (TelemetrySimulator.init.get_next id id (-1) Noise.zero).2.elapsed_seconds ≤
      TelemetrySimulator.init.elapsed_seconds :=
  ⟨by norm_num,
   (C3_nonpositive_step_not_rejected id id TelemetrySimulator.init (-1) Noise.zero
     (by norm_num)).2⟩

/-! ### C4: buffer lengths and FIFO update -/

/-- All four history arrays have length 100. -/
def buffersLen100 (st : TelemetrySimulator) : Prop :=
  st.velocity_time.length = 100 ∧ st.velocity_data.length = 100 ∧
  st.gforce_time.length = 100 ∧ st.gforce_data.length = 100

instance (st : TelemetrySimulator) : Decidable (buffersLen100 st) := by
  unfold buffersLen100; infer_instance

theorem buffersLen100_init : buffersLen100 TelemetrySimulator.init := by
  refine ⟨?_, ?_, ?_, ?_⟩ <;>
    simp only [TelemetrySimulator.init, linspace, zeros_like, List.length_map,
      List.length_range]

theorem np_roll_neg1_length (xs : List ℚ) : (np_roll_neg1 xs).length = xs.length := by
  simp only [np_roll_neg1, List.length_append, List.length_drop, List.length_take]
  omega

theorem np_roll_neg1_getD_penult (xs : List ℚ) (h : 2 ≤ xs.length) :
    (np_roll_neg1 xs).getD ((np_roll_neg1 xs).length - 2) 0 =
      xs.getD (xs.length - 1) 0 := by
  rw [np_roll_neg1_length]
  have h1 : xs.length - 2 < (xs.drop 1).length := by
    rw [List.length_drop]; omega
  have h2 : xs.length - 1 < xs.length := by omega
  have h3 : 1 + (xs.length - 2) < xs.length := by omega
  have hidx : 1 + (xs.length - 2) = xs.length - 1 := by omega
  rw [np_roll_neg1, List.getD_append _ _ 0 _ h1, List.getD_eq_getElem _ _ h1,
    List.getD_eq_getElem _ _ h2, List.getElem_drop xs]
  simp only [hidx]

/-- The per-call update of `gforce_time` (lines 61-62): drop the oldest
entry and append the previous newest entry plus `0.055`. -/
theorem gforce_time_drop_append (st : TelemetrySimulator) (s e : ℚ → ℚ) (dt : ℚ)
    (ε : Noise) (h : 2 ≤ st.gforce_time.length) :
    (st.get_next s e dt ε).2.gforce_time =
      st.gforce_time.drop 1 ++
        [st.gforce_time.getD (st.gforce_time.length - 1) 0 + 0.055] := by
  rw [get_next_gforce_time, np_roll_neg1_getD_penult _ h,
    setLastVal_np_roll_neg1 _ _ (List.length_pos.mp (by omega))]

/-- C4: both history buffers (time and value arrays) keep length exactly 100
through `init`, `reset` and every `get_next` call, and each call drops the
oldest element and appends the new one at the newest end. -/
theorem C4_buffer_lengths_fifo (s e : ℚ → ℚ) (st : TelemetrySimulator) (dt : ℚ)
    (ε : Noise) (h : buffersLen100 st) :
    buffersLen100 TelemetrySimulator.init ∧
    buffersLen100 (TelemetrySimulator.reset st) ∧
    buffersLen100 (st.get_next s e dt ε).2 ∧
    (st.get_next s e dt ε).2.velocity_data =
      st.velocity_data.drop 1 ++ [(st.get_next s e dt ε).1.new_velocity] ∧
    (st.get_next s e dt ε).2.gforce_data =
      st.gforce_data.drop 1 ++ [(st.get_next s e dt ε).1.new_gforce] ∧
    (st.get_next s e dt ε).2.gforce_time =
      st.gforce_time.drop 1 ++
        [st.gforce_time.getD (st.gforce_time.length - 1) 0 + 0.055] := by
  obtain ⟨h1, h2, h3, h4⟩ := h
  have hv : st.velocity_data ≠ [] := List.length_pos.mp (by omega)
  have hgt : st.gforce_time ≠ [] := List.length_pos.mp (by omega)
  have hgd : st.gforce_data ≠ [] := List.length_pos.mp (by omega)
  refine ⟨buffersLen100_init, buffersLen100_init, ⟨?_, ?_, ?_, ?_⟩, ?_, ?_, ?_⟩
  · rw [get_next_velocity_time]; exact h1
  · rw [get_next_velocity_data, length_setLastVal_np_roll_neg1 _ _ hv]; exact h2
  · rw [gforce_time_drop_append st s e dt ε (by omega)]
    simp only [List.length_append, List.length_drop, List.length_singleton]
    omega
  · rw [get_next_gforce_data, length_setLastVal_np_roll_neg1 _ _ hgd]; exact h4
  · rw [get_next_velocity_data, setLastVal_np_roll_neg1 _ _ hv]
  · rw [get_next_gforce_data, setLastVal_np_roll_neg1 _ _ hgd]
  · exact gforce_time_drop_append st s e dt ε (by omega)

/-- Witness for C4 at a fresh instance with step 1 and zero noise. -/
theorem C4_buffer_lengths_fifo_witness :
    buffersLen100 TelemetrySimulator.init ∧
    buffersLen100 (TelemetrySimulator.init.get_next id id 1 Noise.zero).2 :=
  ⟨by decide,
   (C4_buffer_lengths_fifo id id TelemetrySimulator.init 1 Noise.zero (by decide)).2.2.1⟩

/-! ### C5: the velocity time axis is never mutated -/

theorem runSim_velocity_time (s e : ℚ → ℚ) (st : TelemetrySimulator)
    (calls : List (ℚ × Noise)) :
    (runSim s e st calls).velocity_time = st.velocity_time := by
  induction calls generalizing st with
  | nil => rfl
  | cons c rest ih =>
    simp only [runSim]
    rw [ih, get_next_velocity_time]

/-- C5: no `get_next` call mutates the velocity time axis (neither in the
state nor in the returned sample), so after any call sequence from a fresh
instance it still equals the canonical `np.linspace(-120, 0, 100)`. -/
theorem C5_velocity_time_never_mutated (s e : ℚ → ℚ) (st : TelemetrySimulator)
    (dt : ℚ) (ε : Noise) (calls : List (ℚ × Noise)) :
    (st.get_next s e dt ε).2.velocity_time = st.velocity_time ∧
    (st.get_next s e dt ε).1.velocity_time = st.velocity_time ∧
    (runSim s e TelemetrySimulator.init calls).velocity_time =
      linspace (-120) 0 100 :=
  ⟨rfl, rfl, runSim_velocity_time s e TelemetrySimulator.init calls⟩

/-! ### C6: the g-force time axis advances by exactly 0.055 per call -/

theorem getD_last_concat (l : List ℚ) (v : ℚ) :
    (l ++ [v]).getD ((l ++ [v]).length - 1) 0 = v := by
  have h : (l ++ [v]).length - 1 = l.length := by simp
  rw [h, List.getD_append_right _ _ 0 _ (le_refl _), Nat.sub_self]
  rfl

/-- C6: whatever the step argument `dt`, each `get_next` call drops the
oldest `gforce_time` entry and appends the previous newest entry plus 0.055,
so the newest time strictly increases by exactly 0.055 per call. -/
theorem C6_gforce_time_fixed_increment (s e : ℚ → ℚ) (st : TelemetrySimulator)
    (dt : ℚ) (ε : Noise) (h : 2 ≤ st.gforce_time.length) :
    (st.get_next s e dt ε).2.gforce_time =
      st.gforce_time.drop 1 ++
        [st.gforce_time.getD (st.gforce_time.length - 1) 0 + 0.055] ∧
    (st.get_next s e dt ε).2.gforce_time.getLast? =
      some (st.gforce_time.getD (st.gforce_time.length - 1) 0 + 0.055) ∧
    st.gforce_time.getD (st.gforce_time.length - 1) 0 <
      (st.get_next s e dt ε).2.gforce_time.getD
        ((st.get_next s e dt ε).2.gforce_time.length - 1) 0 := by
  have key := gforce_time_drop_append st s e dt ε h
  refine ⟨key, ?_, ?_⟩
  · rw [key]; exact List.getLast?_concat _
  · rw [key, getD_last_concat]
    exact lt_add_of_pos_right _ (by norm_num)

/-- Witness for C6 at a fresh instance with step 7 and zero noise. -/
theorem C6_gforce_time_fixed_increment_witness :
    2 ≤ TelemetrySimulator.init.gforce_time.length ∧
    TelemetrySimulator.init.gforce_time.getD
        (TelemetrySimulator.init.gforce_time.length - 1) 0 <
      (TelemetrySimulator.init.get_next id id 7 Noise.zero).2.gforce_time.getD
        ((TelemetrySimulator.init.get_next id id 7 Noise.zero).2.gforce_time.length - 1) 0 :=
  ⟨by decide,
   (C6_gforce_time_fixed_increment id id TelemetrySimulator.init 7 Noise.zero
     (by decide)).2.2⟩

/-! ### C8: reset reproduces the fresh instance -/

theorem linspace_length (a b : ℚ) (n : ℕ) : (linspace a b n).length = n := by
  rw [linspace, List.length_map, List.length_range]

theorem zeros_like_eq_replicate (xs : List ℚ) :
    zeros_like xs = List.replicate xs.length 0 := by
  rw [zeros_like]
  exact List.map_const' xs 0

/-- C8: `reset()` restores exactly the freshly constructed state (clock 0,
canonical time axes, all-zero value buffers), so any sequence of `get_next`
calls after a `reset()` yields the same state, clock and sample trajectories
as a fresh instance fed the same steps and noise draws. -/
theorem C8_reset_equals_fresh (s e : ℚ → ℚ) (st : TelemetrySimulator)
    (calls : List (ℚ × Noise)) :
    (TelemetrySimulator.reset st).elapsed_seconds = 0 ∧
    (TelemetrySimulator.reset st).velocity_time = linspace (-120) 0 100 ∧
    (TelemetrySimulator.reset st).velocity_data = List.replicate 100 0 ∧
    (TelemetrySimulator.reset st).gforce_time = linspace (-1.5) 4.0 100 ∧
    (TelemetrySimulator.reset st).gforce_data = List.replicate 100 0 ∧
    runSim s e (TelemetrySimulator.reset st) calls =
      runSim s e TelemetrySimulator.init calls ∧
    clockTraj s e (TelemetrySimulator.reset st) calls =
      clockTraj s e TelemetrySimulator.init calls ∧
    sampleTraj s e (TelemetrySimulator.reset st) calls =
      sampleTraj s e TelemetrySimulator.init calls := by
  have hz : zeros_like (linspace (-120) 0 100) = List.replicate 100 0 := by
    rw [zeros_like_eq_replicate, linspace_length]
  have hz2 : zeros_like (linspace (-1.5) 4.0 100) = List.replicate 100 0 := by
    rw [zeros_like_eq_replicate, linspace_length]
  exact ⟨rfl, rfl, hz, rfl, hz2, rfl, rfl, rfl⟩

/-! ### C9: zero-noise scenario after reset -/

theorem get_next_pressure (st : TelemetrySimulator) (s e : ℚ → ℚ) (dt : ℚ) (ε : Noise) :
    (st.get_next s e dt ε).1.pressure =
      101.3 + s ((st.elapsed_seconds + dt) / 10) * 2 + ε.pressure := rfl

theorem get_next_altitude (st : TelemetrySimulator) (s e : ℚ → ℚ) (dt : ℚ) (ε : Noise) :
    (st.get_next s e dt ε).1.altitude =
      1245.8 + (st.elapsed_seconds + dt) * 2.5 +
        s ((st.elapsed_seconds + dt) / 8) * 50 := rfl

/-- C9: with the noise draws all zero, `reset()` followed by one `get_next`
call with step 0.5 yields clock 0.5, pressure `101.3 + 2·sin(0.05)`,
altitude `1245.8 + 1.25 + 50·sin(0.0625)` and latency exactly 24
(inside the clamp bounds, hence unclamped). -/
theorem C9_zero_noise_first_step (s e : ℚ → ℚ) (st : TelemetrySimulator) :
    ((TelemetrySimulator.reset st).get_next s e 0.5 Noise.zero).2.elapsed_seconds = 0.5 ∧
    ((TelemetrySimulator.reset st).get_next s e 0.5 Noise.zero).1.pressure =
      101.3 + 2 * s 0.05 ∧
    ((TelemetrySimulator.reset st).get_next s e 0.5 Noise.zero).1.altitude =
      1245.8 + 1.25 + 50 * s 0.0625 ∧
    ((TelemetrySimulator.reset st).get_next s e 0.5 Noise.zero).1.latency = 24 := by
  have h0 : (TelemetrySimulator.reset st).elapsed_seconds = 0 := rfl
  refine ⟨?_, ?_, ?_, ?_⟩
  · rw [get_next_elapsed, h0]; norm_num
  · rw [get_next_pressure, h0, (by norm_num : ((0 : ℚ) + 0.5) / 10 = 0.05)]
    simp only [Noise.zero]
    ring
  · rw [get_next_altitude, h0, (by norm_num : ((0 : ℚ) + 0.5) / 8 = 0.0625),
      (by norm_num : ((0 : ℚ) + 0.5) * 2.5 = 1.25)]
    ring
  · rw [get_next_latency]
    simp only [Noise.zero]
    norm_num

/-! ### C10: sample-internal consistency -/

theorem getLast?_setLastVal (xs : List ℚ) (v : ℚ) :
    (setLastVal xs v).getLast? = some v := by
  rw [setLastVal]
  exact List.getLast?_concat _

theorem getLast?_drop_one (xs : List ℚ) (h : 2 ≤ xs.length) :
    (xs.drop 1).getLast? = xs.getLast? := by
  cases xs with
  | nil => simp at h
  | cons a t =>
    cases t with
    | nil => simp at h
    | cons b t' => simp [List.getLast?_cons_cons]

theorem getLast?_eq_getD (xs : List ℚ) (h : xs ≠ []) :
    xs.getLast? = some (xs.getD (xs.length - 1) 0) := by
  have hlt : xs.length - 1 < xs.length := by
    have := List.length_pos.mpr h
    omega
  rw [List.getLast?_eq_getElem?, List.getD_eq_getElem _ _ hlt,
    List.getElem?_eq_getElem hlt]

theorem chain'_lt_drop_append (xs : List ℚ) (v : ℚ) (h2 : 2 ≤ xs.length)
    (hc : List.Chain' (· < ·) xs) (hv : xs.getD (xs.length - 1) 0 < v) :
    List.Chain' (· < ·) (xs.drop 1 ++ [v]) := by
  rw [List.chain'_append]
  refine ⟨?_, List.chain'_singleton v, ?_⟩
  · rw [List.drop_one]; exact hc.tail
  · intro x hx y hy
    rw [getLast?_drop_one xs h2,
      getLast?_eq_getD xs (List.length_pos.mp (by omega))] at hx
    simp only [Option.mem_def, Option.some_inj, List.head?_cons] at hx hy
    rw [hx, hy] at hv
    exact hv

/-- The strict-increase invariant of the g-force time axis. -/
def gtInv (st : TelemetrySimulator) : Prop :=
  2 ≤ st.gforce_time.length ∧ List.Chain' (· < ·) st.gforce_time

theorem chain'_lt_linspace_gforce :
    List.Chain' (· < ·) (linspace (-1.5) 4.0 100) := by
  rw [linspace, List.chain'_map]
  have h100 : (100 : ℕ) = 99 + 1 := rfl
  rw [h100, List.chain'_range_succ]
  intro m _
  have hm : (m : ℚ) < ((m + 1 : ℕ) : ℚ) := by exact_mod_cast Nat.lt_succ_self m
  gcongr

theorem gtInv_init : gtInv TelemetrySimulator.init := by
  constructor
  · show 2 ≤ (linspace (-1.5) 4.0 100).length
    rw [linspace_length]; norm_num
  · exact chain'_lt_linspace_gforce

theorem gtInv_step (st : TelemetrySimulator) (s e : ℚ → ℚ) (dt : ℚ) (ε : Noise)
    (h : gtInv st) : gtInv (st.get_next s e dt ε).2 := by
  obtain ⟨h2, hc⟩ := h
  have key := gforce_time_drop_append st s e dt ε h2
  constructor
  · rw [key]
    simp only [List.length_append, List.length_drop, List.length_singleton]
    omega
  · rw [key]
    exact chain'_lt_drop_append _ _ h2 hc (lt_add_of_pos_right _ (by norm_num))

/-- C10: in every sample produced along any call sequence from a state whose
g-force time axis is valid (length ≥ 2, strictly increasing — true of the
fresh instance), `new_velocity` is the last element of the `velocity_data`
snapshot, `new_gforce` is the last element of the `gforce_data` snapshot,
and the `gforce_time` snapshot is strictly increasing. -/
theorem C10_sample_consistency (s e : ℚ → ℚ) (st : TelemetrySimulator)
    (calls : List (ℚ × Noise)) (h : gtInv st) :
    ∀ sp ∈ sampleTraj s e st calls,
      sp.velocity_data.getLast? = some sp.new_velocity ∧
      sp.gforce_data.getLast? = some sp.new_gforce ∧
      List.Chain' (· < ·) sp.gforce_time := by
  induction calls generalizing st with
  | nil => intro sp hsp; simp [sampleTraj] at hsp
  | cons c rest ih =>
    intro sp hsp
    simp only [sampleTraj, List.mem_cons] at hsp
    rcases hsp with rfl | hsp
    · refine ⟨?_, ?_, ?_⟩
      · rw [(get_next_sample_state_eq st s e c.1 c.2).1, get_next_velocity_data]
        exact getLast?_setLastVal _ _
      · rw [(get_next_sample_state_eq st s e c.1 c.2).2.2, get_next_gforce_data]
        exact getLast?_setLastVal _ _
      · rw [(get_next_sample_state_eq st s e c.1 c.2).2.1]
        exact (gtInv_step st s e c.1 c.2 h).2
    · exact ih (st.get_next s e c.1 c.2).2 (gtInv_step st s e c.1 c.2 h) sp hsp

/-- Witness for C10: the single sample of a one-call sequence from a fresh
instance. -/
theorem C10_sample_consistency_witness :
    gtInv TelemetrySimulator.init ∧
    ((TelemetrySimulator.init.get_next id id 1 Noise.zero).1.velocity_data.getLast? =
        some (TelemetrySimulator.init.get_next id id 1 Noise.zero).1.new_velocity ∧
      (TelemetrySimulator.init.get_next id id 1 Noise.zero).1.gforce_data.getLast? =
        some (TelemetrySimulator.init.get_next id id 1 Noise.zero).1.new_gforce ∧
      List.Chain' (· < ·) (TelemetrySimulator.init.get_next id id 1 Noise.zero).1.gforce_time) :=
  ⟨gtInv_init,
   C10_sample_consistency id id TelemetrySimulator.init [(1, Noise.zero)] gtInv_init
     (TelemetrySimulator.init.get_next id id 1 Noise.zero).1 (List.mem_cons_self _ _)⟩

/-! ### C7: defensive copies — a store-based embedding

To state that `get_next` hands out copies of the buffers rather than live
references, array identity must be explicit.  Arrays live in a `Store` (a
list of arrays indexed by allocation order) and the simulator object and the
returned sample hold references into it.  `np.roll` allocates a fresh array
(as in numpy) whose last cell is then overwritten in place before the array
is shared, so roll-plus-store is folded into one allocation; the `.copy()`
calls of lines 74-77 allocate four further arrays for the returned sample. -/

abbrev Store := List (List ℚ)

def Store.read (σ : Store) (r : ℕ) : List ℚ := σ.getD r []

def Store.write (σ : Store) (r : ℕ) (xs : List ℚ) : Store := σ.set r xs

def Store.alloc (σ : Store) (xs : List ℚ) : Store × ℕ := (σ ++ [xs], σ.length)

theorem Store.read_write_ne (σ : Store) (r q : ℕ) (xs : List ℚ) (h : r ≠ q) :
    (σ.write r xs).read q = σ.read q := by
  rw [Store.write, Store.read, Store.read, List.getD_eq_getElem?_getD,
    List.getD_eq_getElem?_getD, List.getElem?_set_ne h]

theorem Store.read_append_add (σ τ : Store) (k : ℕ) :
    (σ ++ τ).read (σ.length + k) = τ.getD k [] := by
  rw [Store.read, List.getD_append_right _ _ _ _ (Nat.le_add_right _ _),
    Nat.add_sub_cancel_left]

theorem Store.read_append_cons (σ : Store) (x : List ℚ) (τ : Store) :
    (σ ++ x :: τ).read σ.length = x := by
  have := Store.read_append_add σ (x :: τ) 0
  rwa [Nat.add_zero] at this

theorem Store.read_append_lt (σ τ : Store) (r : ℕ) (h : r < σ.length) :
    (σ ++ τ).read r = σ.read r := by
  rw [Store.read, Store.read]
  exact List.getD_append _ _ _ _ h

/-- The `TelemetrySimulator` object in the store model: the clock plus one
reference per numpy array attribute. -/
structure SimRef where
  elapsed_seconds : ℚ
  velocity_time : ℕ
  velocity_data : ℕ
  gforce_time : ℕ
  gforce_data : ℕ

/-- The returned dictionary in the store model: scalars by value, the four
array snapshots by reference. -/
structure SampleRef where
  pressure : ℚ
  temperature : ℚ
  altitude : ℚ
  altitude_rate : ℚ
  latency : ℚ
  velocity_time : ℕ
  velocity_data : ℕ
  gforce_time : ℕ
  gforce_data : ℕ
  new_velocity : ℚ
  new_gforce : ℚ

/-- `get_next` in the store model (lines 36-80): three allocations for the
rolled-and-updated internal arrays, then four allocations for the `.copy()`
snapshots placed in the returned dictionary. -/
def SimRef.get_next (st : SimRef) (s e : ℚ → ℚ) (dt : ℚ) (ε : Noise) (σ : Store) :
    Store × SampleRef × SimRef :=
  let elapsed := st.elapsed_seconds + dt
  let pressure := 101.3 + s (elapsed / 10) * 2 + ε.pressure
  let temperature := 24.8 + s (elapsed / 15 + 1) * 3 + ε.temperature
  let altitude := 1245.8 + elapsed * 2.5 + s (elapsed / 8) * 50
  let altitude_rate := 12.4 + s (elapsed / 7) * 8
  let latency := max 10 (min 100 (24 + ε.latency))
  let new_velocity := max 0 (15 + 10 * s (elapsed / 20) + ε.velocity)
  let (σ1, vd) := σ.alloc (setLastVal (np_roll_neg1 (σ.read st.velocity_data)) new_velocity)
  let gtR := np_roll_neg1 (σ1.read st.gforce_time)
  let (σ2, gt) := σ1.alloc (setLastVal gtR (gtR.getD (gtR.length - 2) 0 + 0.055))
  let new_gforce := max 0 (2 + 3 * e (-((fmod elapsed 30 - 15) ^ 2) / 50) + ε.gforce)
  let (σ3, gd) := σ2.alloc (setLastVal (np_roll_neg1 (σ2.read st.gforce_data)) new_gforce)
  let (σ4, vtC) := σ3.alloc (σ3.read st.velocity_time)
  let (σ5, vdC) := σ4.alloc (σ4.read vd)
  let (σ6, gtC) := σ5.alloc (σ5.read gt)
  let (σ7, gdC) := σ6.alloc (σ6.read gd)
  (σ7,
   ⟨pressure, temperature, altitude, altitude_rate, latency,
    vtC, vdC, gtC, gdC, new_velocity, new_gforce⟩,
   ⟨elapsed, st.velocity_time, vd, gt, gd⟩)

/-- The pure state an object denotes: dereference its four arrays. -/
def SimRef.abs (σ : Store) (st : SimRef) : TelemetrySimulator :=
  ⟨st.elapsed_seconds, σ.read st.velocity_time, σ.read st.velocity_data,
   σ.read st.gforce_time, σ.read st.gforce_data⟩

/-- The pure sample a returned dictionary denotes. -/
def SampleRef.abs (σ : Store) (sp : SampleRef) : Sample :=
  ⟨sp.pressure, sp.temperature, sp.altitude, sp.altitude_rate, sp.latency,
   σ.read sp.velocity_time, σ.read sp.velocity_data,
   σ.read sp.gforce_time, σ.read sp.gforce_data,
   sp.new_velocity, sp.new_gforce⟩

/-- All four array references of the object point into the store. -/
def SimRef.validRefs (st : SimRef) (σ : Store) : Prop :=
  st.velocity_time < σ.length ∧ st.velocity_data < σ.length ∧
  st.gforce_time < σ.length ∧ st.gforce_data < σ.length

instance (st : SimRef) (σ : Store) : Decidable (st.validRefs σ) := by
  unfold SimRef.validRefs; infer_instance

def SimRef.bufferRefs (st : SimRef) : List ℕ :=
  [st.velocity_time, st.velocity_data, st.gforce_time, st.gforce_data]

def SampleRef.bufferRefs (sp : SampleRef) : List ℕ :=
  [sp.velocity_time, sp.velocity_data, sp.gforce_time, sp.gforce_data]

/-- `__init__` in the store model: four fresh arrays. -/
def SimRef.mkInit : Store × SimRef :=
  ([linspace (-120) 0 100, zeros_like (linspace (-120) 0 100),
    linspace (-1.5) 4.0 100, zeros_like (linspace (-1.5) 4.0 100)],
   ⟨0, 0, 1, 2, 3⟩)

theorem get_next_ref_distinct (s e : ℚ → ℚ) (σ : Store) (st : SimRef) (dt : ℚ)
    (ε : Noise) (h : st.validRefs σ) :
    ∀ r ∈ (st.get_next s e dt ε σ).2.1.bufferRefs,
      ∀ q ∈ (st.get_next s e dt ε σ).2.2.bufferRefs, r ≠ q := by
  obtain ⟨h1, h2, h3, h4⟩ := h
  simp only [SimRef.get_next, Store.alloc, SampleRef.bufferRefs, SimRef.bufferRefs,
    List.forall_mem_cons, List.not_mem_nil, false_implies, forall_const, and_true,
    true_and, List.length_append, List.length_cons, List.length_nil]
  omega

/-- C7: the sample returned by `get_next` holds defensive copies, not live
references.  Under valid references: the returned snapshots and the new
internal state both denote exactly what the pure model computes; every array
reference in the sample is distinct from every array reference retained in
the internal state; and consequently writing anything through a sample
reference leaves the denoted internal state (clock and all four buffers)
unchanged. -/
theorem C7_defensive_copies (s e : ℚ → ℚ) (σ : Store) (st : SimRef) (dt : ℚ)
    (ε : Noise) (h : st.validRefs σ) :
    SampleRef.abs (st.get_next s e dt ε σ).1 (st.get_next s e dt ε σ).2.1 =
      ((SimRef.abs σ st).get_next s e dt ε).1 ∧
    SimRef.abs (st.get_next s e dt ε σ).1 (st.get_next s e dt ε σ).2.2 =
      ((SimRef.abs σ st).get_next s e dt ε).2 ∧
    (∀ r ∈ (st.get_next s e dt ε σ).2.1.bufferRefs,
      ∀ q ∈ (st.get_next s e dt ε σ).2.2.bufferRefs, r ≠ q) ∧
    (∀ r ∈ (st.get_next s e dt ε σ).2.1.bufferRefs, ∀ xs : List ℚ,
      SimRef.abs ((st.get_next s e dt ε σ).1.write r xs)
          (st.get_next s e dt ε σ).2.2 =
        SimRef.abs (st.get_next s e dt ε σ).1 (st.get_next s e dt ε σ).2.2) := by
  obtain ⟨h1, h2, h3, h4⟩ := h
  refine ⟨?_, ?_, ?_, ?_⟩
  · simp [SimRef.get_next, Store.alloc, SampleRef.abs, SimRef.abs,
      TelemetrySimulator.get_next, Store.read_append_cons, Store.read_append_add,
      Store.read_append_lt, h1, h2, h3, h4]
  · simp [SimRef.get_next, Store.alloc, SampleRef.abs, SimRef.abs,
      TelemetrySimulator.get_next, Store.read_append_cons, Store.read_append_add,
      Store.read_append_lt, h1, h2, h3, h4]
  · exact get_next_ref_distinct s e σ st dt ε ⟨h1, h2, h3, h4⟩
  · intro r hr xs
    have hne := get_next_ref_distinct s e σ st dt ε ⟨h1, h2, h3, h4⟩ r hr
    have w : ∀ q ∈ (st.get_next s e dt ε σ).2.2.bufferRefs,
        ((st.get_next s e dt ε σ).1.write r xs).read q =
          (st.get_next s e dt ε σ).1.read q :=
      fun q hq => Store.read_write_ne _ r q xs (hne q hq)
    unfold SimRef.abs
    rw [w (st.get_next s e dt ε σ).2.2.velocity_time (by simp [SimRef.bufferRefs]),
      w (st.get_next s e dt ε σ).2.2.velocity_data (by simp [SimRef.bufferRefs]),
      w (st.get_next s e dt ε σ).2.2.gforce_time (by simp [SimRef.bufferRefs]),
      w (st.get_next s e dt ε σ).2.2.gforce_data (by simp [SimRef.bufferRefs])]

/-- Witness for C7: the reference-distinctness conjunct at the concrete
initial store and object, step 1 and zero noise. -/
theorem C7_defensive_copies_witness :
    SimRef.mkInit.2.validRefs SimRef.mkInit.1 ∧
    (∀ r ∈ (SimRef.mkInit.2.get_next id id 1 Noise.zero SimRef.mkInit.1).2.1.bufferRefs,
      ∀ q ∈ (SimRef.mkInit.2.get_next id id 1 Noise.zero SimRef.mkInit.1).2.2.bufferRefs,
        r ≠ q) :=
  ⟨by decide,
   (C7_defensive_copies id id SimRef.mkInit.1 SimRef.mkInit.2 1 Noise.zero
     (by decide)).2.2.1⟩

end CanSat
